import Mathlib

set_option maxRecDepth 8192

/-!
Verification of the AI-service core of a small Rust web backend.

The embedding below translates the service module of the repository
(src/src/services/mod.rs) into Lean: the closed error taxonomy, the
configuration record, the offline mock responder with its keyword-driven
answer selection, the live GigaChat service wrapper, and the factory that
selects between the two implementations. Network dispatch is embedded by
passing an explicit provider function from dispatch requests to outcomes,
so that the pure control flow around it (guards, prompt composition,
error mapping) is captured exactly as written in the source.

String conventions: the source lowercases with Unicode to_lowercase and
the embedding lowercases per character; the two agree on all ASCII text,
which covers every keyword predicate of the mock responder. Substring
and starting-with checks are embedded over the character lists of the
strings, matching the source semantics of str::contains and
str::starts_with on these patterns. Apostrophes inside answer texts are
written with the \x27 escape; the denoted strings are unchanged.
-/

/-- Embedding of str::to_lowercase: lowercase every character. The source
lowercases with full Unicode rules; this embedding lowercases per character,
and the two agree on all ASCII text, which covers every keyword predicate
of the mock responder. -/
def rustToLowercase (s : String) : String :=
  ⟨s.data.map Char.toLower⟩

/-- Embedding of str::starts_with for a pattern string: the pattern is a
character-list prefix of the text. -/
def startsWith (s pat : String) : Bool :=
  pat.data.isPrefixOf s.data

/-- Embedding of str::contains for a pattern string: the pattern occurs as a
contiguous character run somewhere in the text. -/
def containsSub (s pat : String) : Bool :=
  (List.range (s.data.length + 1)).any (fun i => pat.data.isPrefixOf (s.data.drop i))

/-- Error taxonomy of the service module (enum AiServiceError, lines 77 to 91
of services/mod.rs): API failure, configuration failure, internal failure. -/
inductive AiServiceError where
  | ApiError (msg : String)
  | ConfigError (msg : String)
  | InternalError (msg : String)
deriving DecidableEq, Repr

/-- Configuration record for the live service. The config module itself is a
collaborator outside the service module; its field list is fixed by the
constructor call in the doctest of GigaChatService::new (lines 216 to 222)
and by the uses in ask. The temperature is only carried, never computed
with, so the floating point value of the source is embedded as a rational. -/
structure GigaChatConfig where
  enabled : Bool
  model : String
  max_tokens : Nat
  temperature : Rat
  timeout_seconds : Nat
deriving DecidableEq, Repr

/-- State of GigaChatService (lines 190 to 199): the token, the
configuration, and an optional system prompt. -/
structure GigaChatService where
  token : String
  config : GigaChatConfig
  system_prompt : Option String
deriving DecidableEq, Repr

/-- Constructor GigaChatService::new (lines 226 to 232). -/
def GigaChatService.new (token : String) (config : GigaChatConfig)
    (system_prompt : Option String) : GigaChatService :=
  { token, config, system_prompt }

/-- Unit struct MockAiService (line 376). -/
structure MockAiService where
deriving DecidableEq, Repr

/-- Constructor MockAiService::new (lines 388 to 390). -/
def MockAiService.new : MockAiService := {}

/-- Greeting answer of the mock service (lines 414 to 423). -/
def greetingAnswer : String :=
  "Hello! I\x27m a demo AI assistant for the Rust project.\n\nI\x27m running in mock mode, but I can answer questions about:\n- Rust programming language\n- Rocket web framework\n- Async programming\n- REST API and JSON\n- Testing\n- Error handling\n\nTry asking me about any of these topics! For full AI capabilities, configure the GigaChat API connection."

/-- Web framework topic answer of the mock service (lines 425 to 432). -/
def rocketAnswer : String :=
  "Rocket is a web framework for Rust that makes building fast and secure web applications simple and enjoyable. Key features:\n- Compile-time type safety\n- Convenient routing macros (#[get], #[post], etc.)\n- Automatic JSON deserialization\n- Built-in testing support\n- Flexible middleware system (fairings)\nRocket is ideal for building REST APIs and web services."

/-- Testing topic answer of the mock service (lines 434 to 439). -/
def testAnswer : String :=
  "Testing in Rust is a built-in language feature. Types of tests:\n- Unit tests (#[test]) - test individual functions\n- Integration tests (tests/ folder) - test component interactions\n- Doc tests - examples in documentation that are automatically verified\nRocket provides convenient tools for testing web apps via rocket::local::blocking::Client. Run with: cargo test"

/-- Error handling topic answer of the mock service (lines 441 to 446). -/
def errorAnswer : String :=
  "Error handling in Rust is based on Result<T, E> and Option<T> types:\n- Result - for operations that may fail\n- Option - for values that may be absent\n- ? operator - for convenient error propagation\n- thiserror - library for creating custom error types\nThis approach forces explicit error handling and eliminates many runtime issues."

/-- Serialization topic answer of the mock service (lines 448 to 454). -/
def serdeAnswer : String :=
  "Serde is a powerful framework for serializing and deserializing data in Rust. It allows you to:\n- Automatically convert JSON to Rust structs\n- Convert structs back to JSON\n- Work with other formats (TOML, YAML, MessagePack)\n- Use derive macros for automatic code generation\nExample: #[derive(Serialize, Deserialize)] makes a struct JSON-compatible."

/-- Async topic answer of the mock service (lines 456 to 462). -/
def asyncAnswer : String :=
  "Async programming in Rust allows efficient handling of many tasks simultaneously without creating many threads. Key concepts:\n- async/await - syntax for async functions\n- Future - trait for async computations\n- Tokio - popular async runtime\n- Async trait - for async methods in traits\nEspecially useful for web servers, network apps, and I/O operations."

/-- API topic answer of the mock service (lines 464 to 471). -/
def apiAnswer : String :=
  "REST API (Representational State Transfer) is an architectural style for building web services. Main principles:\n- GET - retrieve data\n- POST - create new resources\n- PUT/PATCH - update existing resources\n- DELETE - remove resources\nWith Rust and Rocket, building APIs is convenient thanks to type safety and automatic JSON handling via serde."

/-- Compound how-work topic answer of the mock service (lines 473 to 480). -/
def howWorkAnswer : String :=
  "This app is a demo project showing how to build a web service in Rust. Architecture:\n- Rocket - accepts HTTP requests\n- Handlers - process requests (in src/handlers/)\n- Services - business logic and AI integration (in src/services/)\n- Models - data structures for API (in src/models/)\n- Config - configuration management (config.toml)\n\nThe service can run in two modes: with real GigaChat API or with mocks (current)."

/-- General language topic answer of the mock service (lines 482 to 486). -/
def rustAnswer : String :=
  "Rust is a systems programming language focused on safety, speed, and concurrency. It was developed by Mozilla Research and first released in 2010. Rust guarantees memory safety without using a garbage collector through its ownership and borrowing system. This makes Rust ideal for systems programming, web servers, embedded systems, and high-performance applications."

/-- Fallback answer of the mock service (lines 488 to 497). -/
def fallbackAnswer : String :=
  "This is a demo response from the mock service.\n\nI can help with questions about:\n- Rust and its features\n- Rocket web framework\n- Async programming\n- REST API\n- Testing\n\nTry asking: \x27What is Rust?\x27 or \x27How does Rocket work?\x27\n\nFor real AI responses, configure the GigaChat API by setting GIGACHAT_TOKEN environment variable and gigachat.enabled=true in config.toml."

/-- Greeting predicate of MockAiService::ask on the lowercased question
(lines 407 to 411): contains hello, or starts with one of three guarded
hi forms, or is exactly hi. -/
def mockIsGreeting (question_lower : String) : Bool :=
  containsSub question_lower "hello"
    || startsWith question_lower "hi "
    || startsWith question_lower "hi!"
    || startsWith question_lower "hi,"
    || question_lower == "hi"

/-- Answer selection of MockAiService::ask (lines 403 to 498): lowercase the
question, then walk the ordered predicate chain, first match wins. -/
def mockAnswer (question : String) : String :=
  let question_lower := rustToLowercase question
  if mockIsGreeting question_lower then greetingAnswer
  else if containsSub question_lower "rocket" then rocketAnswer
  else if containsSub question_lower "test" then testAnswer
  else if containsSub question_lower "error" then errorAnswer
  else if containsSub question_lower "serde" || containsSub question_lower "json" then serdeAnswer
  else if containsSub question_lower "async" then asyncAnswer
  else if containsSub question_lower "api" then apiAnswer
  else if containsSub question_lower "how" && containsSub question_lower "work" then howWorkAnswer
  else if containsSub question_lower "rust" then rustAnswer
  else fallbackAnswer

/-- MockAiService::ask (lines 401 to 501): always Ok of the selected answer. -/
def MockAiService.ask (_ : MockAiService) (question : String) :
    Except AiServiceError String :=
  .ok (mockAnswer question)

/-- MockAiService::name (lines 503 to 505). -/
def MockAiService.name (_ : MockAiService) : String :=
  "Mock AI Service"

/-- MockAiService::system_prompt_applied (lines 507 to 509). -/
def MockAiService.system_prompt_applied (_ : MockAiService) : Bool :=
  false

/-- Embedding of str::trim: drop leading and trailing whitespace characters.
The source trims Unicode whitespace; the embedding trims the whitespace
characters of Char.isWhitespace, which agree on the ASCII whitespace
relevant to the token and prompt guards. -/
def rustTrim (s : String) : String :=
  ⟨((s.data.dropWhile Char.isWhitespace).reverse.dropWhile Char.isWhitespace).reverse⟩

/-- Message parameters built by MessageConfigBuilder inside the spawned
blocking task (lines 302 to 306): max_tokens, model and temperature taken
from the configuration. -/
structure MessageConfig where
  max_tokens : Nat
  model : String
  temperature : Rat
deriving DecidableEq, Repr

/-- Everything the spawned blocking task of GigaChatService::ask feeds to the
external client (lines 297 to 321): the message parameters, the basic token
set on the client builder, and the composed prompt sent to the chat. -/
structure DispatchRequest where
  msg_config : MessageConfig
  token : String
  prompt : String
deriving DecidableEq, Repr

/-- Outcome of the spawned blocking task as seen after the two map_err calls
(lines 325 to 330): the task itself can fail (spawn join error, a panic in
the worker), the client call can fail (network or API), or the client
responds with content. -/
inductive SpawnOutcome where
  | panicked (msg : String)
  | clientFailed (msg : String)
  | responded (content : String)
deriving DecidableEq, Repr

/-- Trimming and emptiness filtering of the system prompt inside
GigaChatService::ask (lines 280 to 284): map trim over the optional prompt,
then drop it when empty. -/
def trimmedPrompt (system_prompt : Option String) : Option String :=
  (system_prompt.map rustTrim).filter (fun prompt => !prompt.isEmpty)

/-- Outbound prompt composition of GigaChatService::ask (lines 286 to 292):
with a surviving system prompt, a fixed instruction-framing template around
the prompt and the question; otherwise the question unmodified. -/
def composePrompt (system_prompt : Option String) (question : String) : String :=
  match trimmedPrompt system_prompt with
  | some prompt =>
      "Системные инструкции (не выводи пользователю):\n" ++ prompt ++
        "\n\nВопрос пользователя:\n" ++ question
  | none => question

/-- Request assembled by GigaChatService::ask for the spawned blocking task
(lines 276 to 311): configuration parameters, token, composed prompt. -/
def GigaChatService.dispatchRequest (s : GigaChatService) (question : String) :
    DispatchRequest :=
  { msg_config :=
      { max_tokens := s.config.max_tokens
      , model := s.config.model
      , temperature := s.config.temperature }
  , token := s.token
  , prompt := composePrompt s.system_prompt question }

/-- GigaChatService::ask (lines 269 to 333). The network dispatch is
abstracted by the provider argument, a function from the assembled request
to the outcome of the spawned blocking task; the pure control flow around
it is translated exactly: the blank-token guard returns the configuration
error before any dispatch, a join failure maps to InternalError, a client
failure maps to ApiError, and a response is returned as Ok. -/
def GigaChatService.ask (s : GigaChatService) (question : String)
    (provider : DispatchRequest → SpawnOutcome) : Except AiServiceError String :=
  if (rustTrim s.token).isEmpty then
    .error (.ConfigError "GigaChat token is empty")
  else
    match provider (s.dispatchRequest question) with
    | .panicked msg => .error (.InternalError msg)
    | .clientFailed msg => .error (.ApiError msg)
    | .responded content => .ok content

/-- GigaChatService::name (lines 335 to 337). -/
def GigaChatService.name (_ : GigaChatService) : String :=
  "GigaChat"

/-- GigaChatService::system_prompt_applied (lines 339 to 344). -/
def GigaChatService.system_prompt_applied (s : GigaChatService) : Bool :=
  (s.system_prompt.map (fun prompt => !(rustTrim prompt).isEmpty)).getD false

/-- Value of type Box of dyn AiService as produced by the factory: one of the
two concrete implementations. -/
inductive AnyAiService where
  | gigachat (s : GigaChatService)
  | mock (s : MockAiService)
deriving DecidableEq, Repr

/-- AiServiceFactory::create with the gigachat feature enabled, the default
build (lines 573 to 585): the live service exactly when the configuration
is enabled and a token is present, the mock otherwise. -/
def AiServiceFactory.create (config : GigaChatConfig) (token : Option String)
    (system_prompt : Option String) : AnyAiService :=
  match (config.enabled, token) with
  | (true, some t) => .gigachat (GigaChatService.new t config system_prompt)
  | _ => .mock MockAiService.new

/-- AiServiceFactory::create without the gigachat feature (lines 599 to 606):
always the mock service. -/
def AiServiceFactory.createWithoutGigachat (_config : GigaChatConfig)
    (_token : Option String) (_system_prompt : Option String) : AnyAiService :=
  .mock MockAiService.new

/-- Every branch of the mock answer selection yields a non-empty text. -/
theorem mockAnswer_ne_empty (q : String) : mockAnswer q ≠ "" := by
  unfold mockAnswer
  dsimp only
  repeat' split
  all_goals decide

/-- The mock answer is the greeting answer exactly on inputs whose lowercase
form satisfies the greeting predicate: the first branch returns it, and all
later branches return texts distinct from it. -/
theorem mockAnswer_eq_greeting_iff (q : String) :
    mockAnswer q = greetingAnswer ↔ mockIsGreeting (rustToLowercase q) = true := by
  unfold mockAnswer
  dsimp only
  split
  · next h => simp [h]
  · next h =>
    simp only [h, iff_false]
    repeat' split
    all_goals decide

/-- C2: for every input string, including the empty string, MockAiService.ask
returns Ok with non-empty answer text, never returns an AiServiceError, and
the empty question yields the generic fallback paragraph. -/
theorem mock_ask_total_and_nonempty (question : String) :
    (∃ answer, MockAiService.ask MockAiService.new question = .ok answer ∧ answer ≠ "") ∧
    (∀ e : AiServiceError, MockAiService.ask MockAiService.new question ≠ .error e) ∧
    MockAiService.ask MockAiService.new "" = .ok fallbackAnswer := by
  refine ⟨⟨mockAnswer question, rfl, mockAnswer_ne_empty question⟩, ?_, ?_⟩
  · intro e h
    exact Except.noConfusion h
  · exact congrArg Except.ok (by decide)

/-- Instantiation of the C2 theorem at the empty question. -/
theorem mock_ask_total_and_nonempty_instance :
    MockAiService.ask MockAiService.new "" = .ok fallbackAnswer :=
  (mock_ask_total_and_nonempty "").2.2

/-- C5: an input receives the greeting answer exactly when its lowercase form
equals hi, contains hello, or starts with one of the three guarded hi
forms; the five listed greeting inputs classify as greetings, and the input
about a test goes to the testing topic, not the greeting, because the hi
inside the word this is excluded by the boundary rules. -/
theorem greeting_classification :
    (∀ q : String,
        mockAnswer q = greetingAnswer ↔
          (rustToLowercase q = "hi" ∨
            containsSub (rustToLowercase q) "hello" = true ∨
            startsWith (rustToLowercase q) "hi " = true ∨
            startsWith (rustToLowercase q) "hi!" = true ∨
            startsWith (rustToLowercase q) "hi," = true)) ∧
    mockAnswer "hi" = greetingAnswer ∧
    mockAnswer "hi there" = greetingAnswer ∧
    mockAnswer "hi!" = greetingAnswer ∧
    mockAnswer "hi, friend" = greetingAnswer ∧
    mockAnswer "hello world" = greetingAnswer ∧
    mockAnswer "this is a test" = testAnswer := by
  refine ⟨fun q => ?_, by decide, by decide, by decide, by decide, by decide, by decide⟩
  rw [mockAnswer_eq_greeting_iff]
  unfold mockIsGreeting
  simp only [Bool.or_eq_true, beq_iff_eq]
  tauto

/-- Instantiation of the C5 theorem at the exact greeting input. -/
theorem greeting_classification_instance :
    mockAnswer "hi" = greetingAnswer :=
  greeting_classification.2.1

/-- C6: a non-greeting input whose lowercase form contains both rocket and
rust receives the web framework answer, because the rocket predicate is
tested before the generic rust predicate, and that answer is distinct from
the general language answer. -/
theorem rocket_precedes_rust (q : String)
    (hg : mockIsGreeting (rustToLowercase q) = false)
    (hr : containsSub (rustToLowercase q) "rocket" = true)
    (_hrust : containsSub (rustToLowercase q) "rust" = true) :
    mockAnswer q = rocketAnswer ∧ rocketAnswer ≠ rustAnswer := by
  refine ⟨?_, by decide⟩
  unfold mockAnswer
  dsimp only
  simp [hg, hr]

/-- Instantiation of the C6 theorem at the example input of the spec. -/
theorem rocket_precedes_rust_instance :
    mockAnswer "What is Rocket built on, Rust?" = rocketAnswer :=
  (rocket_precedes_rust "What is Rocket built on, Rust?"
    (by decide) (by decide) (by decide)).1

/-- C10: the hello branch of the greeting predicate is a plain substring
check, so every input whose lowercase form contains hello anywhere,
including inside a longer word, receives the greeting answer. -/
theorem hello_substring_greeting (q : String)
    (h : containsSub (rustToLowercase q) "hello" = true) :
    mockAnswer q = greetingAnswer := by
  rw [mockAnswer_eq_greeting_iff]
  unfold mockIsGreeting
  rw [h]
  rfl

/-- Instantiation of the C10 theorem at a word embedding hello. -/
theorem hello_substring_greeting_instance :
    mockAnswer "a question about othello" = greetingAnswer :=
  hello_substring_greeting "a question about othello" (by decide)

/-- C1: the factory is a pure selection function: it constructs the live
GigaChat service, built from the given token, configuration and system
prompt, exactly when the configuration is enabled and a token is present,
even an empty one, and constructs the mock service in every other case. -/
theorem factory_selection (config : GigaChatConfig)
    (token system_prompt : Option String) :
    (config.enabled = true → ∀ t, token = some t →
        AiServiceFactory.create config token system_prompt =
          .gigachat (GigaChatService.new t config system_prompt)) ∧
    (config.enabled = false ∨ token = none →
        AiServiceFactory.create config token system_prompt =
          .mock MockAiService.new) := by
  constructor
  · rintro he t rfl
    simp [AiServiceFactory.create, he]
  · rintro (he | rfl)
    · cases token <;> simp [AiServiceFactory.create, he]
    · cases hc : config.enabled <;> simp [AiServiceFactory.create]

/-- Instantiation of the C1 theorem: live service for enabled plus empty
token, mock for disabled with a token, mock for enabled without a token. -/
theorem factory_selection_instance :
    AiServiceFactory.create ⟨true, "GigaChat", 128, 7/10, 30⟩ (some "") none =
      .gigachat (GigaChatService.new "" ⟨true, "GigaChat", 128, 7/10, 30⟩ none) ∧
    AiServiceFactory.create ⟨false, "GigaChat", 128, 7/10, 30⟩ (some "tok123") none =
      .mock MockAiService.new ∧
    AiServiceFactory.create ⟨true, "GigaChat", 128, 7/10, 30⟩ none none =
      .mock MockAiService.new :=
  ⟨(factory_selection _ _ _).1 rfl "" rfl,
    (factory_selection _ _ _).2 (Or.inl rfl),
    (factory_selection _ _ _).2 (Or.inr rfl)⟩

/-- C3: with a token that is empty after trimming, GigaChatService.ask
returns the configuration error whatever the provider does, so the result
is independent of the provider function and no dispatch is consulted. -/
theorem blank_token_config_error (s : GigaChatService) (question : String)
    (h : (rustTrim s.token).isEmpty = true) :
    ∀ provider : DispatchRequest → SpawnOutcome,
      GigaChatService.ask s question provider =
        .error (.ConfigError "GigaChat token is empty") := by
  intro provider
  unfold GigaChatService.ask
  simp [h]

/-- Instantiation of the C3 theorem at a whitespace-only token and a provider
that would answer if it were ever consulted. -/
theorem blank_token_config_error_instance :
    GigaChatService.ask
        (GigaChatService.new "   " ⟨true, "GigaChat", 128, 7/10, 30⟩ none)
        "What is Rust?" (fun _ => .responded "an answer") =
      .error (.ConfigError "GigaChat token is empty") :=
  blank_token_config_error _ _ (by decide) _

/-- C4 counterexample: two services that differ only in timeout_seconds, one
second against a thousand seconds, assemble the same dispatch request and
behave identically on every step of ask, so the outbound call is not
bounded by the configured timeout_seconds. -/
theorem dispatch_ignores_timeout_cex :
    (GigaChatService.new "tok123" ⟨true, "GigaChat", 128, 7/10, 1⟩ none).dispatchRequest
        "What is Rust?" =
      (GigaChatService.new "tok123" ⟨true, "GigaChat", 128, 7/10, 1000⟩ none).dispatchRequest
        "What is Rust?" ∧
    (⟨true, "GigaChat", 128, 7/10, 1⟩ : GigaChatConfig).timeout_seconds <
      (⟨true, "GigaChat", 128, 7/10, 1000⟩ : GigaChatConfig).timeout_seconds :=
  ⟨rfl, by decide⟩

/-- C4 amended: every dispatch performed by GigaChatService.ask carries the
configured model, max_tokens and temperature, but timeout_seconds never
reaches the dispatch: the assembled request and the whole result of ask are
unchanged under any change of timeout_seconds. -/
theorem dispatch_params_and_timeout_independence (s : GigaChatService)
    (question : String) (t : Nat) :
    (s.dispatchRequest question).msg_config.max_tokens = s.config.max_tokens ∧
    (s.dispatchRequest question).msg_config.model = s.config.model ∧
    (s.dispatchRequest question).msg_config.temperature = s.config.temperature ∧
    GigaChatService.dispatchRequest
        { s with config := { s.config with timeout_seconds := t } } question =
      s.dispatchRequest question ∧
    ∀ provider, GigaChatService.ask
        { s with config := { s.config with timeout_seconds := t } } question provider =
      GigaChatService.ask s question provider := by
  refine ⟨rfl, rfl, rfl, rfl, fun provider => rfl⟩

/-- C7: the live service reports an applied system prompt exactly when a
prompt is present and non-empty after trimming, so false for an absent,
empty or whitespace-only prompt and true for a short instruction, and the
mock service reports false for every instance. -/
theorem system_prompt_applied_semantics :
    (∀ s : GigaChatService,
        s.system_prompt_applied = true ↔
          ∃ p, s.system_prompt = some p ∧ (rustTrim p).isEmpty = false) ∧
    (∀ tok : String, ∀ cfg : GigaChatConfig,
        (GigaChatService.new tok cfg none).system_prompt_applied = false ∧
        (GigaChatService.new tok cfg (some "")).system_prompt_applied = false ∧
        (GigaChatService.new tok cfg (some "   ")).system_prompt_applied = false ∧
        (GigaChatService.new tok cfg (some "Be concise")).system_prompt_applied = true) ∧
    (∀ m : MockAiService, m.system_prompt_applied = false) := by
  refine ⟨fun s => ?_, fun tok cfg => ⟨rfl, rfl, rfl, rfl⟩, fun m => rfl⟩
  unfold GigaChatService.system_prompt_applied
  cases hsp : s.system_prompt with
  | none => simp
  | some p => simp [Bool.not_eq_true']

/-- Instantiation of the C7 theorem at the four prompt shapes of the spec. -/
theorem system_prompt_applied_semantics_instance :
    (GigaChatService.new "tok" ⟨true, "GigaChat", 128, 7/10, 30⟩
        none).system_prompt_applied = false ∧
    (GigaChatService.new "tok" ⟨true, "GigaChat", 128, 7/10, 30⟩
        (some "")).system_prompt_applied = false ∧
    (GigaChatService.new "tok" ⟨true, "GigaChat", 128, 7/10, 30⟩
        (some "   ")).system_prompt_applied = false ∧
    (GigaChatService.new "tok" ⟨true, "GigaChat", 128, 7/10, 30⟩
        (some "Be concise")).system_prompt_applied = true :=
  system_prompt_applied_semantics.2.1 "tok" ⟨true, "GigaChat", 128, 7/10, 30⟩

/-- C8: the text handed to the provider is the fixed instruction-framing
template around the trimmed prompt and the question when the configured
prompt survives trimming, and the question unmodified when the prompt is
absent or empty after trimming. -/
theorem outbound_prompt_composition (s : GigaChatService) (question : String) :
    (∀ p, s.system_prompt = some p → (rustTrim p).isEmpty = false →
        (s.dispatchRequest question).prompt =
          "Системные инструкции (не выводи пользователю):\n" ++ rustTrim p ++
            "\n\nВопрос пользователя:\n" ++ question) ∧
    (s.system_prompt = none → (s.dispatchRequest question).prompt = question) ∧
    (∀ p, s.system_prompt = some p → (rustTrim p).isEmpty = true →
        (s.dispatchRequest question).prompt = question) := by
  refine ⟨fun p hsp hne => ?_, fun hsp => ?_, fun p hsp he => ?_⟩
  · simp [GigaChatService.dispatchRequest, composePrompt, trimmedPrompt,
      Option.filter, hsp, hne]
  · simp [GigaChatService.dispatchRequest, composePrompt, trimmedPrompt, hsp]
  · simp [GigaChatService.dispatchRequest, composePrompt, trimmedPrompt,
      Option.filter, hsp, he]

/-- Instantiation of the C8 theorem at a prompt with surrounding whitespace. -/
theorem outbound_prompt_composition_instance :
    ((GigaChatService.new "tok" ⟨true, "GigaChat", 128, 7/10, 30⟩
        (some "  Be concise ")).dispatchRequest "What is Rust?").prompt =
      "Системные инструкции (не выводи пользователю):\n" ++ rustTrim "  Be concise " ++
        "\n\nВопрос пользователя:\n" ++ "What is Rust?" :=
  (outbound_prompt_composition _ _).1 "  Be concise " rfl (by decide)

/-- C9: with a usable token, a failure of the spawned task itself surfaces as
InternalError, a failure reported by the provider client surfaces as
ApiError with the underlying cause text, a response surfaces as Ok, the
three error kinds are pairwise distinct, and every outcome of ask is Ok or
one of the three typed errors. -/
theorem error_kind_mapping (s : GigaChatService) (question : String)
    (htok : (rustTrim s.token).isEmpty = false) :
    (∀ provider msg, provider (s.dispatchRequest question) = .panicked msg →
        GigaChatService.ask s question provider = .error (.InternalError msg)) ∧
    (∀ provider msg, provider (s.dispatchRequest question) = .clientFailed msg →
        GigaChatService.ask s question provider = .error (.ApiError msg)) ∧
    (∀ provider content, provider (s.dispatchRequest question) = .responded content →
        GigaChatService.ask s question provider = .ok content) ∧
    (∀ msg : String, AiServiceError.InternalError msg ≠ .ApiError msg ∧
        AiServiceError.InternalError msg ≠ .ConfigError msg ∧
        AiServiceError.ApiError msg ≠ .ConfigError msg) ∧
    (∀ provider, (∃ a, GigaChatService.ask s question provider = .ok a) ∨
        (∃ m, GigaChatService.ask s question provider = .error (.InternalError m)) ∨
        (∃ m, GigaChatService.ask s question provider = .error (.ApiError m)) ∨
        (∃ m, GigaChatService.ask s question provider = .error (.ConfigError m))) := by
  have hask : ∀ provider : DispatchRequest → SpawnOutcome,
      GigaChatService.ask s question provider =
        match provider (s.dispatchRequest question) with
        | .panicked msg => .error (.InternalError msg)
        | .clientFailed msg => .error (.ApiError msg)
        | .responded content => .ok content := by
    intro provider
    unfold GigaChatService.ask
    simp [htok]
  refine ⟨?_, ?_, ?_, ?_, ?_⟩
  · intro provider msg h
    rw [hask, h]
  · intro provider msg h
    rw [hask, h]
  · intro provider content h
    rw [hask, h]
  · intro msg
    exact ⟨by simp, by simp, by simp⟩
  · intro provider
    rw [hask]
    cases provider (s.dispatchRequest question) with
    | panicked msg => exact Or.inr (Or.inl ⟨msg, rfl⟩)
    | clientFailed msg => exact Or.inr (Or.inr (Or.inl ⟨msg, rfl⟩))
    | responded content => exact Or.inl ⟨content, rfl⟩

/-- Instantiation of the C9 theorem at a panicking worker and at a failing
client. -/
theorem error_kind_mapping_instance :
    GigaChatService.ask
        (GigaChatService.new "tok123" ⟨true, "GigaChat", 128, 7/10, 30⟩ none)
        "What is Rust?" (fun _ => .panicked "worker panicked") =
      .error (.InternalError "worker panicked") ∧
    GigaChatService.ask
        (GigaChatService.new "tok123" ⟨true, "GigaChat", 128, 7/10, 30⟩ none)
        "What is Rust?" (fun _ => .clientFailed "connection refused") =
      .error (.ApiError "connection refused") :=
  ⟨(error_kind_mapping _ _ (by decide)).1 _ "worker panicked" rfl,
    (error_kind_mapping _ _ (by decide)).2.1 _ "connection refused" rfl⟩
